import Mathlib

/-!
Verification of the auth0-management request-composition layer.

The two source files under verification are `src/users/user_logs_get.rs`
(the `UserLogsGet` request object and its `RelativeRequestBuilder::build`)
and `src/users/user_update.rs` (the `UserUpdate` request object, its
seventeen fluent setters plus `user_id`, and its `Auth0RequestBuilder::build`).

The collaborating types `Page`, `Sort`, `User` and `Auth0` live in other
files of the repository; they are modelled here from the specification
(each such definition carries a doc comment saying so).  JSON and
query-string serialization driven by the `#[serde(...)]` attributes on the
request structs is embedded directly: a field marked
`skip_serializing_if = "Option::is_none"` contributes nothing when `none`,
a field marked `skip_serializing` never contributes, `flatten` splices the
inner struct's entries in place, and fields are emitted in declaration
order.
-/

namespace Auth0Management

/-- A JSON value, the target of body serialization.  The caller-supplied
metadata payload types are serialized through caller-supplied encoding
functions into this type; the framework never inspects the result. -/
inductive Json where
  | null : Json
  | bool : Bool → Json
  | num : Int → Json
  | str : String → Json
  | arr : List Json → Json
  | obj : List (String × Json) → Json

/-- HTTP methods used by the request builders (`reqwest::Method`). -/
inductive Method where
  | GET : Method
  | POST : Method
  | PATCH : Method
  | PUT : Method
  | DELETE : Method
deriving DecidableEq

/-- The call description a `build` implementation produces: the verb and
relative path handed to the factory, the query parameters attached with
`.query(&self)`, and the JSON body attached with `.json(self)` (absent for
requests that attach none). -/
structure HttpCall where
  method : Method
  path : String
  query : List (String × String)
  body : Option (List (String × Json))

/-- Modelled from the spec: the `Auth0` client (not under `src/`), which
"owns base URL/auth state" (§2).  Only its identity matters to the request
objects, which hold it by reference and never serialize it. -/
structure Auth0 where
  base_url : String

/-- Modelled from the spec: the `Ordering` direction enum of the `Sort`
parameter (§3): ascending or descending. -/
inductive Ordering where
  | Ascending : Ordering
  | Descending : Ordering
deriving DecidableEq

/-- Modelled from the spec: the `Sort` parameter (not under `src/`):
"field name + ascending/descending ... or empty (no sort requested)" (§3),
created empty by `Default::default()`. -/
structure «Sort» where
  value : Option (String × Ordering)
deriving DecidableEq

/-- Modelled from the spec: the default (empty) `Sort`, "no sort
requested". -/
def «Sort».default : «Sort» := ⟨none⟩

/-- Modelled from the spec: the `is_empty` predicate "reports whether a
sort was ever set" (§4.2).  The source spells the name `is_emtpy` in the
`skip_serializing_if` attribute of `UserLogsGet.sort`, and that spelling is
kept. -/
def «Sort».is_emtpy (s : «Sort») : Bool := s.value.isNone

/-- Modelled from the spec: `sort(field, direction)` "sets both
components" (§4.2). -/
def «Sort».sort (_s : «Sort») (f : String) (o : Ordering) : «Sort» :=
  ⟨some (f, o)⟩

/-- Modelled from the spec: the wire token of a non-empty sort, "`field:1`
for ascending and `field:-1` for descending" (§4.2). -/
def «Sort».token (s : «Sort») : String :=
  match s.value with
  | none => ""
  | some (f, Ordering.Ascending) => f ++ ":1"
  | some (f, Ordering.Descending) => f ++ ":-1"

/-- Modelled from the spec: the `Page` parameter (not under `src/`):
"page number + page size (+ optional total-count request)"; "all fields
optional at the wire level — absent fields mean server default" (§3). -/
structure Page where
  page : Option Nat
  per_page : Option Nat
  include_totals : Option Bool
deriving DecidableEq

/-- Modelled from the spec: the default `Page`, "created with defaults (no
pagination applied)" (§3). -/
def Page.default : Page := ⟨none, none, none⟩

/-- Modelled from the spec: `page(n)` "sets the corresponding field and
returns the mutable receiver" (§4.1). -/
def Page.set_page (p : Page) (n : Nat) : Page :=
  { p with page := some n }

/-- Modelled from the spec: `per_page(n)` setter (§4.1). -/
def Page.set_per_page (p : Page) (n : Nat) : Page :=
  { p with per_page := some n }

/-- Modelled from the spec: `include_totals(bool)` setter (§4.1). -/
def Page.set_include_totals (p : Page) (b : Bool) : Page :=
  { p with include_totals := some b }

/-- One optional query parameter: emitted only when set ("emits only the
fields that were explicitly set", §4.1). -/
def optQuery {α : Type} (key : String) (render : α → String) :
    Option α → List (String × String)
  | none => []
  | some v => [(key, render v)]

/-- Modelled from the spec: `Page` "serializes to query parameters" (§3),
emitting only the fields that were explicitly set (§4.1). -/
def Page.queryParams (p : Page) : List (String × String) :=
  optQuery "page" toString p.page ++
  optQuery "per_page" toString p.per_page ++
  optQuery "include_totals" (fun b => if b then "true" else "false") p.include_totals

/-- Modelled from the spec: the `User` entity (not under `src/`), "generic
over two user-supplied metadata payload types" (§3); its `user_id` field is
the one the `From<&User<A, U>>` conversion in `user_logs_get.rs` reads. -/
structure User (A U : Type) where
  user_id : String
  app_metadata : Option A
  user_metadata : Option U

/-- The `UserLogsGet` request object (`user_logs_get.rs`, lines 115-123):
`id` marked `#[serde(skip)]`, `page` marked `#[serde(flatten)]`, `sort`
marked `#[serde(skip_serializing_if = "Sort::is_emtpy")]`. -/
structure UserLogsGet where
  id : String
  page : Page
  sort : «Sort»
deriving DecidableEq

/-- `UserLogsGet::new` (lines 125-134): stores the id, defaults `page` and
`sort`. -/
def UserLogsGet.new (id : String) : UserLogsGet :=
  { id := id, page := Page.default, sort := «Sort».default }

/-- `From<&User<A, U>> for UserLogsGet` (lines 136-140): delegates to
`UserLogsGet::new(&user.user_id)`.  (`from` is a Lean keyword, hence the
name `fromUser`.) -/
def UserLogsGet.fromUser {A U : Type} (u : User A U) : UserLogsGet :=
  UserLogsGet.new u.user_id

/-- The `Pageable`-style `per_page` setter reaching `page` through
`AsMut<Page>` (lines 142-146); the setter itself is modelled from the spec
contract "`per_page(n)` sets the corresponding field" (§4.1). -/
def UserLogsGet.per_page (r : UserLogsGet) (n : Nat) : UserLogsGet :=
  { r with page := r.page.set_per_page n }

/-- The `Sortable`-style `sort` setter reaching `sort` through
`AsMut<Sort>` (lines 148-152); the setter itself is modelled from the spec
contract "`sort(field, direction)` sets both components" (§4.2).  Named
`set_sort` because the projection already claims `sort`. -/
def UserLogsGet.set_sort (r : UserLogsGet) (f : String) (o : Ordering) : UserLogsGet :=
  { r with sort := r.sort.sort f o }

/-- Query serialization of `UserLogsGet` under its serde attributes:
`id` skipped, `page` flattened in place, `sort` emitted (as the wire
token) unless `Sort::is_emtpy`. -/
def UserLogsGet.queryParams (r : UserLogsGet) : List (String × String) :=
  r.page.queryParams ++
  (if r.sort.is_emtpy then [] else [("sort", r.sort.token)])

/-- `RelativeRequestBuilder::build for UserLogsGet` (lines 157-162):
`factory(Method::GET, "api/v2/users/" + id + "/logs").query(&self)`, no
body attached. -/
def UserLogsGet.build (r : UserLogsGet) : HttpCall :=
  { method := Method.GET
    path := "api/v2/users/" ++ r.id ++ "/logs"
    query := r.queryParams
    body := none }

/-- The `UserUpdate` request object (`user_update.rs`, lines 28-70):
`client` and `user_id` marked `#[serde(skip_serializing)]`, every other
field an `Option` marked `skip_serializing_if = "Option::is_none"`, in the
declaration order below. -/
structure UserUpdate (A U : Type) where
  client : Auth0
  user_id : String
  blocked : Option Bool
  email : Option String
  email_verified : Option Bool
  phone_number : Option String
  phone_verified : Option Bool
  given_name : Option String
  family_name : Option String
  name : Option String
  nickname : Option String
  picture : Option String
  password : Option String
  connection : Option String
  client_id : Option String
  verify_email : Option Bool
  verify_phone_number : Option Bool
  app_metadata : Option A
  user_metadata : Option U

/-- `UserUpdate::new` (lines 74-97): stores the client handle and the id,
every optional field `None`. -/
def UserUpdate.new {A U : Type} (client : Auth0) (id : String) : UserUpdate A U :=
  { client := client
    user_id := id
    blocked := none
    email := none
    email_verified := none
    phone_number := none
    phone_verified := none
    given_name := none
    family_name := none
    name := none
    nickname := none
    picture := none
    password := none
    connection := none
    client_id := none
    verify_email := none
    verify_phone_number := none
    app_metadata := none
    user_metadata := none }

/-- `UserUpdate::user_id` setter (lines 100-103).  In the source every
setter mutates through `&mut self` and returns the same receiver; here the
updated record is returned. -/
def UserUpdate.set_user_id {A U : Type} (r : UserUpdate A U) (id : String) : UserUpdate A U :=
  { r with user_id := id }

/-- `UserUpdate::blocked` setter (lines 106-109). -/
def UserUpdate.set_blocked {A U : Type} (r : UserUpdate A U) (b : Bool) : UserUpdate A U :=
  { r with blocked := some b }

/-- `UserUpdate::email` setter (lines 112-115). -/
def UserUpdate.set_email {A U : Type} (r : UserUpdate A U) (v : String) : UserUpdate A U :=
  { r with email := some v }

/-- `UserUpdate::email_verified` setter (lines 119-122). -/
def UserUpdate.set_email_verified {A U : Type} (r : UserUpdate A U) (v : Bool) : UserUpdate A U :=
  { r with email_verified := some v }

/-- `UserUpdate::phone_number` setter (lines 126-129). -/
def UserUpdate.set_phone_number {A U : Type} (r : UserUpdate A U) (v : String) : UserUpdate A U :=
  { r with phone_number := some v }

/-- `UserUpdate::phone_verified` setter (lines 132-135). -/
def UserUpdate.set_phone_verified {A U : Type} (r : UserUpdate A U) (v : Bool) : UserUpdate A U :=
  { r with phone_verified := some v }

/-- `UserUpdate::given_name` setter (lines 138-141). -/
def UserUpdate.set_given_name {A U : Type} (r : UserUpdate A U) (v : String) : UserUpdate A U :=
  { r with given_name := some v }

/-- `UserUpdate::family_name` setter (lines 144-147). -/
def UserUpdate.set_family_name {A U : Type} (r : UserUpdate A U) (v : String) : UserUpdate A U :=
  { r with family_name := some v }

/-- `UserUpdate::name` setter (lines 150-153). -/
def UserUpdate.set_name {A U : Type} (r : UserUpdate A U) (v : String) : UserUpdate A U :=
  { r with name := some v }

/-- `UserUpdate::nickname` setter (lines 156-159). -/
def UserUpdate.set_nickname {A U : Type} (r : UserUpdate A U) (v : String) : UserUpdate A U :=
  { r with nickname := some v }

/-- `UserUpdate::picture` setter (lines 162-165). -/
def UserUpdate.set_picture {A U : Type} (r : UserUpdate A U) (v : String) : UserUpdate A U :=
  { r with picture := some v }

/-- `UserUpdate::verify_email` setter (lines 169-172). -/
def UserUpdate.set_verify_email {A U : Type} (r : UserUpdate A U) (v : Bool) : UserUpdate A U :=
  { r with verify_email := some v }

/-- `UserUpdate::verify_phone_number` setter (lines 176-179). -/
def UserUpdate.set_verify_phone_number {A U : Type} (r : UserUpdate A U) (v : Bool) : UserUpdate A U :=
  { r with verify_phone_number := some v }

/-- `UserUpdate::password` setter (lines 182-185). -/
def UserUpdate.set_password {A U : Type} (r : UserUpdate A U) (v : String) : UserUpdate A U :=
  { r with password := some v }

/-- `UserUpdate::connection` setter (lines 188-191). -/
def UserUpdate.set_connection {A U : Type} (r : UserUpdate A U) (v : String) : UserUpdate A U :=
  { r with connection := some v }

/-- `UserUpdate::client_id` setter (lines 194-197). -/
def UserUpdate.set_client_id {A U : Type} (r : UserUpdate A U) (v : String) : UserUpdate A U :=
  { r with client_id := some v }

/-- `UserUpdate::app_metadata` setter (lines 200-203): stores the
caller-supplied payload as given. -/
def UserUpdate.set_app_metadata {A U : Type} (r : UserUpdate A U) (m : A) : UserUpdate A U :=
  { r with app_metadata := some m }

/-- `UserUpdate::user_metadata` setter (lines 206-209): stores the
caller-supplied payload as given. -/
def UserUpdate.set_user_metadata {A U : Type} (r : UserUpdate A U) (m : U) : UserUpdate A U :=
  { r with user_metadata := some m }

/-- One optional body field: under
`#[serde(skip_serializing_if = "Option::is_none")]`, a `None` field
contributes nothing and a `Some` field contributes exactly one key. -/
def optField {α : Type} (key : String) (enc : α → Json) :
    Option α → List (String × Json)
  | none => []
  | some v => [(key, enc v)]

/-- JSON body serialization of `UserUpdate` under its serde attributes:
`client` and `user_id` always skipped, the optional fields emitted in
declaration order when set.  `sA` and `sU` are the serializers of the
caller-supplied metadata types (the `A: Serialize`, `U: Serialize`
bounds). -/
def UserUpdate.body {A U : Type} (r : UserUpdate A U)
    (sA : A → Json) (sU : U → Json) : List (String × Json) :=
  optField "blocked" Json.bool r.blocked ++
  optField "email" Json.str r.email ++
  optField "email_verified" Json.bool r.email_verified ++
  optField "phone_number" Json.str r.phone_number ++
  optField "phone_verified" Json.bool r.phone_verified ++
  optField "given_name" Json.str r.given_name ++
  optField "family_name" Json.str r.family_name ++
  optField "name" Json.str r.name ++
  optField "nickname" Json.str r.nickname ++
  optField "picture" Json.str r.picture ++
  optField "password" Json.str r.password ++
  optField "connection" Json.str r.connection ++
  optField "client_id" Json.str r.client_id ++
  optField "verify_email" Json.bool r.verify_email ++
  optField "verify_phone_number" Json.bool r.verify_phone_number ++
  optField "app_metadata" sA r.app_metadata ++
  optField "user_metadata" sU r.user_metadata

/-- `Auth0RequestBuilder::build for UserUpdate` (lines 226-231):
`factory(Method::DELETE, "api/v2/users/" + user_id).json(self)` — the
source really passes `Method::DELETE` here. -/
def UserUpdate.build {A U : Type} (r : UserUpdate A U)
    (sA : A → Json) (sU : U → Json) : HttpCall :=
  { method := Method.DELETE
    path := "api/v2/users/" ++ r.user_id
    query := []
    body := some (r.body sA sU) }

/-- The build step of `UserLogsGet` seen as a state transformer on the
request: the source's `build` borrows the request through `&self`, so the
receiver after the call is the receiver before it. -/
def UserLogsGet.buildStep (r : UserLogsGet) : HttpCall × UserLogsGet :=
  (r.build, r)

/-- The build step of `UserUpdate` seen as a state transformer on the
request: the source's `build` borrows the request through `&self`, so the
receiver after the call is the receiver before it. -/
def UserUpdate.buildStep {A U : Type} (r : UserUpdate A U)
    (sA : A → Json) (sU : U → Json) : HttpCall × UserUpdate A U :=
  (r.build sA sU, r)

/-- Every entry of `Page.queryParams` has one of the three pagination
keys. -/
theorem Page.queryParams_keys (p : Page) (kv : String × String)
    (h : kv ∈ p.queryParams) :
    kv.1 = "page" ∨ kv.1 = "per_page" ∨ kv.1 = "include_totals" := by
  obtain ⟨pg, pp, it⟩ := p
  cases pg <;> cases pp <;> cases it <;>
    simp [Page.queryParams, optQuery] at h <;>
    rcases h with h | h | h <;> simp_all

/-- A serialized optional body field whose key differs from `k'`
contributes nothing to the `k'`-filtered body. -/
theorem optField_filter_of_ne {α : Type} (k k' : String) (enc : α → Json)
    (o : Option α) (h : (k == k') = false) :
    (optField k enc o).filter (fun kv => kv.1 == k') = [] := by
  cases o <;> simp [optField, h]

/-- A serialized optional body field is returned whole by the filter at
its own key. -/
theorem optField_filter_self {α : Type} (k : String) (enc : α → Json)
    (o : Option α) :
    (optField k enc o).filter (fun kv => kv.1 == k) = optField k enc o := by
  cases o <;> simp [optField]

/-- Filtering a UserUpdate body at the `app_metadata` key leaves exactly
the serialized `app_metadata` field (every other field has a different
key). -/
theorem UserUpdate.body_filter_app_metadata {A U : Type}
    (r : UserUpdate A U) (sA : A → Json) (sU : U → Json) :
    (r.body sA sU).filter (fun kv => kv.1 == "app_metadata")
      = optField "app_metadata" sA r.app_metadata := by
  simp only [UserUpdate.body, List.filter_append]
  rw [optField_filter_of_ne "blocked" "app_metadata" _ _ (by decide),
    optField_filter_of_ne "email" "app_metadata" _ _ (by decide),
    optField_filter_of_ne "email_verified" "app_metadata" _ _ (by decide),
    optField_filter_of_ne "phone_number" "app_metadata" _ _ (by decide),
    optField_filter_of_ne "phone_verified" "app_metadata" _ _ (by decide),
    optField_filter_of_ne "given_name" "app_metadata" _ _ (by decide),
    optField_filter_of_ne "family_name" "app_metadata" _ _ (by decide),
    optField_filter_of_ne "name" "app_metadata" _ _ (by decide),
    optField_filter_of_ne "nickname" "app_metadata" _ _ (by decide),
    optField_filter_of_ne "picture" "app_metadata" _ _ (by decide),
    optField_filter_of_ne "password" "app_metadata" _ _ (by decide),
    optField_filter_of_ne "connection" "app_metadata" _ _ (by decide),
    optField_filter_of_ne "client_id" "app_metadata" _ _ (by decide),
    optField_filter_of_ne "verify_email" "app_metadata" _ _ (by decide),
    optField_filter_of_ne "verify_phone_number" "app_metadata" _ _ (by decide),
    optField_filter_of_ne "user_metadata" "app_metadata" _ _ (by decide),
    optField_filter_self "app_metadata" sA r.app_metadata]
  simp

/-- Filtering a UserUpdate body at the `user_metadata` key leaves exactly
the serialized `user_metadata` field. -/
theorem UserUpdate.body_filter_user_metadata {A U : Type}
    (r : UserUpdate A U) (sA : A → Json) (sU : U → Json) :
    (r.body sA sU).filter (fun kv => kv.1 == "user_metadata")
      = optField "user_metadata" sU r.user_metadata := by
  simp only [UserUpdate.body, List.filter_append]
  rw [optField_filter_of_ne "blocked" "user_metadata" _ _ (by decide),
    optField_filter_of_ne "email" "user_metadata" _ _ (by decide),
    optField_filter_of_ne "email_verified" "user_metadata" _ _ (by decide),
    optField_filter_of_ne "phone_number" "user_metadata" _ _ (by decide),
    optField_filter_of_ne "phone_verified" "user_metadata" _ _ (by decide),
    optField_filter_of_ne "given_name" "user_metadata" _ _ (by decide),
    optField_filter_of_ne "family_name" "user_metadata" _ _ (by decide),
    optField_filter_of_ne "name" "user_metadata" _ _ (by decide),
    optField_filter_of_ne "nickname" "user_metadata" _ _ (by decide),
    optField_filter_of_ne "picture" "user_metadata" _ _ (by decide),
    optField_filter_of_ne "password" "user_metadata" _ _ (by decide),
    optField_filter_of_ne "connection" "user_metadata" _ _ (by decide),
    optField_filter_of_ne "client_id" "user_metadata" _ _ (by decide),
    optField_filter_of_ne "verify_email" "user_metadata" _ _ (by decide),
    optField_filter_of_ne "verify_phone_number" "user_metadata" _ _ (by decide),
    optField_filter_of_ne "app_metadata" "user_metadata" _ _ (by decide),
    optField_filter_self "user_metadata" sU r.user_metadata]
  simp

/-- C1: "For every UserUpdate request, the HTTP call produced by build
uses a PATCH/PUT-style verb (an update verb, not GET and not DELETE)
addressed at the path api/v2/users/(user_id)."  The code violates this:
`Auth0RequestBuilder::build for UserUpdate` passes `Method::DELETE` to the
factory, even though the struct's own documentation says "Update a user"
and lists the `update:users` scopes.  Evaluated here on the concrete
request `UserUpdate::new(client, "U123")`: the verb is DELETE (and in
particular not PATCH and not PUT), while the path is the expected one. -/
theorem C1_user_update_build_uses_delete :
    ((UserUpdate.new (A := Unit) (U := Unit) ⟨"https://tenant.auth0.com"⟩ "U123").build
        (fun _ => Json.null) (fun _ => Json.null)).method = Method.DELETE ∧
    Method.DELETE ≠ Method.PATCH ∧ Method.DELETE ≠ Method.PUT ∧
    ((UserUpdate.new (A := Unit) (U := Unit) ⟨"https://tenant.auth0.com"⟩ "U123").build
        (fun _ => Json.null) (fun _ => Json.null)).path = "api/v2/users/U123" := by
  refine ⟨rfl, by decide, by decide, rfl⟩

/-- C2: for every UserUpdate on which only the `blocked(true)` setter was
called after construction, the serialized JSON body is exactly the single
pair `blocked = true`; every other field, including `user_id` and the
client handle, is entirely absent. -/
theorem C2_only_blocked_body (A U : Type) (sA : A → Json) (sU : U → Json)
    (client : Auth0) (id : String) :
    ((UserUpdate.new (A := A) (U := U) client id).set_blocked true).body sA sU
      = [("blocked", Json.bool true)] := by
  rfl

/-- C3: a UserLogsGet for user U123 with `per_page = 100` and
`sort("date", Ascending)` builds a GET to `api/v2/users/U123/logs` with
query parameters `per_page=100` and `sort=date:1` and no body. -/
theorem C3_logs_scenario :
    (((UserLogsGet.new "U123").per_page 100).set_sort "date" Ordering.Ascending).build
      = { method := Method.GET
          path := "api/v2/users/U123/logs"
          query := [("per_page", "100"), ("sort", "date:1")]
          body := none } := by
  rfl

/-- C4: for every UserLogsGet on which no sort was ever set (its Sort is
empty), the serialized query parameters contain no `sort` key at all. -/
theorem C4_empty_sort_omitted (r : UserLogsGet)
    (h : r.sort.is_emtpy = true) :
    ((r.queryParams.map Prod.fst).contains "sort") = false := by
  simp only [UserLogsGet.queryParams, h, if_true]
  simp only [List.append_nil, List.contains_eq_any_beq, List.any_eq_false,
    List.mem_map]
  rintro x ⟨kv, hkv, rfl⟩
  rcases Page.queryParams_keys r.page kv hkv with h1 | h1 | h1 <;>
    simp [h1]

/-- Witness for C4 at the concrete request `UserLogsGet::new("U123")`. -/
theorem C4_empty_sort_omitted_witness :
    («Sort».is_emtpy (UserLogsGet.new "U123").sort = true) ∧
    (((UserLogsGet.new "U123").queryParams.map Prod.fst).contains "sort") = false :=
  ⟨rfl, C4_empty_sort_omitted (UserLogsGet.new "U123") rfl⟩

/-- C5: for every UserUpdate and every metadata value, after calling
`app_metadata(m)` (resp. `user_metadata(m)`) the serialized body carries
under the `app_metadata` (resp. `user_metadata`) key exactly the
caller-supplied serialization of `m`, with no local merge, modification or
inspection. -/
theorem C5_metadata_shipped_verbatim (A U : Type) (sA : A → Json)
    (sU : U → Json) (r : UserUpdate A U) (m : A) (mu : U) :
    ((r.set_app_metadata m).body sA sU).filter (fun kv => kv.1 == "app_metadata")
        = [("app_metadata", sA m)] ∧
    ((r.set_user_metadata mu).body sA sU).filter (fun kv => kv.1 == "user_metadata")
        = [("user_metadata", sU mu)] := by
  constructor
  · rw [UserUpdate.body_filter_app_metadata]
    rfl
  · rw [UserUpdate.body_filter_user_metadata]
    rfl

/-- C6: building a request mutates nothing: the receiver after `build` is
the receiver before it, and building again afterwards yields the same
call, for both UserLogsGet and UserUpdate. -/
theorem C6_build_is_pure :
    (∀ r : UserLogsGet,
        (r.buildStep).2 = r ∧
        (((r.buildStep).2).buildStep).1 = (r.buildStep).1) ∧
    (∀ (A U : Type) (r : UserUpdate A U) (sA : A → Json) (sU : U → Json),
        (r.buildStep sA sU).2 = r ∧
        (((r.buildStep sA sU).2).buildStep sA sU).1 = (r.buildStep sA sU).1) :=
  ⟨fun _ => ⟨rfl, rfl⟩, fun _ _ _ _ _ => ⟨rfl, rfl⟩⟩

/-- C7: for every Page on which only `per_page` was set, the serialized
query parameters of a request embedding that Page contain a `per_page`
key and contain neither a `page` key nor an `include_totals` key. -/
theorem C7_per_page_only (n : Nat) (idv : String) (s : «Sort») :
    (((UserLogsGet.mk idv (Page.default.set_per_page n) s).queryParams.map Prod.fst).contains "per_page") = true ∧
    (((UserLogsGet.mk idv (Page.default.set_per_page n) s).queryParams.map Prod.fst).contains "page") = false ∧
    (((UserLogsGet.mk idv (Page.default.set_per_page n) s).queryParams.map Prod.fst).contains "include_totals") = false := by
  obtain ⟨v⟩ := s
  cases v <;>
    simp [UserLogsGet.queryParams, Page.queryParams, Page.default,
      Page.set_per_page, optQuery, «Sort».is_emtpy]

/-- C8: every fluent setter of UserUpdate sets exactly its own field to
the supplied value and leaves every other field (the client handle and the
path parameter included) unchanged; in the source each returns the same
mutable receiver, embedded here as returning the updated record. -/
theorem C8_setters_set_exactly_their_field :
    (∀ (A U : Type) (r : UserUpdate A U) (v : Bool),
        r.set_blocked v = { r with blocked := some v }) ∧
    (∀ (A U : Type) (r : UserUpdate A U) (v : String),
        r.set_email v = { r with email := some v }) ∧
    (∀ (A U : Type) (r : UserUpdate A U) (v : Bool),
        r.set_email_verified v = { r with email_verified := some v }) ∧
    (∀ (A U : Type) (r : UserUpdate A U) (v : String),
        r.set_phone_number v = { r with phone_number := some v }) ∧
    (∀ (A U : Type) (r : UserUpdate A U) (v : Bool),
        r.set_phone_verified v = { r with phone_verified := some v }) ∧
    (∀ (A U : Type) (r : UserUpdate A U) (v : String),
        r.set_given_name v = { r with given_name := some v }) ∧
    (∀ (A U : Type) (r : UserUpdate A U) (v : String),
        r.set_family_name v = { r with family_name := some v }) ∧
    (∀ (A U : Type) (r : UserUpdate A U) (v : String),
        r.set_name v = { r with name := some v }) ∧
    (∀ (A U : Type) (r : UserUpdate A U) (v : String),
        r.set_nickname v = { r with nickname := some v }) ∧
    (∀ (A U : Type) (r : UserUpdate A U) (v : String),
        r.set_picture v = { r with picture := some v }) ∧
    (∀ (A U : Type) (r : UserUpdate A U) (v : Bool),
        r.set_verify_email v = { r with verify_email := some v }) ∧
    (∀ (A U : Type) (r : UserUpdate A U) (v : Bool),
        r.set_verify_phone_number v = { r with verify_phone_number := some v }) ∧
    (∀ (A U : Type) (r : UserUpdate A U) (v : String),
        r.set_password v = { r with password := some v }) ∧
    (∀ (A U : Type) (r : UserUpdate A U) (v : String),
        r.set_connection v = { r with connection := some v }) ∧
    (∀ (A U : Type) (r : UserUpdate A U) (v : String),
        r.set_client_id v = { r with client_id := some v }) ∧
    (∀ (A U : Type) (r : UserUpdate A U) (v : A),
        r.set_app_metadata v = { r with app_metadata := some v }) ∧
    (∀ (A U : Type) (r : UserUpdate A U) (v : U),
        r.set_user_metadata v = { r with user_metadata := some v }) ∧
    (∀ (A U : Type) (r : UserUpdate A U) (v : String),
        r.set_user_id v = { r with user_id := v }) :=
  ⟨fun _ _ _ _ => rfl, fun _ _ _ _ => rfl, fun _ _ _ _ => rfl,
   fun _ _ _ _ => rfl, fun _ _ _ _ => rfl, fun _ _ _ _ => rfl,
   fun _ _ _ _ => rfl, fun _ _ _ _ => rfl, fun _ _ _ _ => rfl,
   fun _ _ _ _ => rfl, fun _ _ _ _ => rfl, fun _ _ _ _ => rfl,
   fun _ _ _ _ => rfl, fun _ _ _ _ => rfl, fun _ _ _ _ => rfl,
   fun _ _ _ _ => rfl, fun _ _ _ _ => rfl, fun _ _ _ _ => rfl⟩

/-- C9: a freshly constructed UserUpdate with no setters called serializes
to the empty JSON object: every optional field is None and skipped, and
the client handle and `user_id` are excluded by construction. -/
theorem C9_fresh_update_body_empty (A U : Type) (sA : A → Json)
    (sU : U → Json) (client : Auth0) (id : String) :
    (UserUpdate.new (A := A) (U := U) client id).body sA sU = [] := by
  rfl

/-- C10: for every User value, `UserLogsGet::from(&user)` equals
`UserLogsGet::new(&user.user_id)`: its id is the user's id, its Page is
the default and its Sort is empty. -/
theorem C10_from_user (A U : Type) (u : User A U) :
    UserLogsGet.fromUser u = UserLogsGet.new u.user_id ∧
    (UserLogsGet.fromUser u).id = u.user_id ∧
    (UserLogsGet.fromUser u).page = Page.default ∧
    «Sort».is_emtpy (UserLogsGet.fromUser u).sort = true :=
  ⟨rfl, rfl, rfl, rfl⟩

end Auth0Management
